import Mathlib

/-!
Shallow embedding of the Position & Settlement Engine of
`polyterminal_automation` (files `src/trade.py`, `src/redeem.py`,
`src/redeem_lock.py`).

Python's float arithmetic on monetary quantities is embedded as exact
rational arithmetic (`ℚ`): every arithmetic operation the source performs
on its accumulators is mirrored exactly, with no rounding step, because
the source itself contains no rounding or quantisation step on the
accumulator state.  Facts about which values are representable on the
chain's 6-decimal grid are independent of binary rounding: if even the
exact computation leaves the grid, the float computation is not
fixed-point either.
-/

/-- The two outcome tokens of a binary market (`"UP"` / `"DOWN"` strings in
`trade.py`). -/
inductive Side where
  | UP : Side
  | DOWN : Side
deriving DecidableEq, Repr

/-- One entry of `PositionTracker.open_positions` (the dict built in
`add_open_position`, `trade.py` lines 784-823).  The `status` field of the
dict is the constant `"OPEN"` while the position is open, so it is omitted;
`time` is the `time.time()` stamp, passed in explicitly. -/
structure Position where
  side : Side
  price : ℚ
  size : ℚ
  cost : ℚ
  shares : ℚ
  tokenId : ℕ
  tradeId : Option ℕ
  time : ℚ
deriving DecidableEq, Repr

/-- One entry of `PositionTracker.closed_trades` as produced by
`close_all_side_positions` (`trade.py` lines 1067-1121): the original
position dict plus `sale_price` and `profit`. -/
structure ClosedTrade where
  pos : Position
  salePrice : ℚ
  profit : ℚ
deriving DecidableEq, Repr

/-- The mutable state of `PositionTracker` (`trade.py` lines 758-782) that
the Position Ledger operations read and write.  Display-only fields
(`user_ws_connected`, `token_to_side`, `current_market_id`,
`start_btc_price`, ...) are omitted. -/
structure PositionTracker where
  open_positions : List Position
  closed_trades : List ClosedTrade
  session_trades : ℤ
  session_wins : ℕ
  session_pnl : ℚ
  realized_pnl : ℚ
  up_total_cost : ℚ
  up_total_size : ℚ
  down_total_cost : ℚ
  down_total_size : ℚ
deriving DecidableEq, Repr

/-- `PositionTracker.__init__`: every accumulator starts at `0.0`
(a Python float literal, not a fixed-point integer). -/
def PositionTracker.init : PositionTracker where
  open_positions := []
  closed_trades := []
  session_trades := 0
  session_wins := 0
  session_pnl := 0
  realized_pnl := 0
  up_total_cost := 0
  up_total_size := 0
  down_total_cost := 0
  down_total_size := 0

/-- `PositionTracker.add_open_position(side, price, size, token_id, trade_id)`
(`trade.py` lines 784-823).  `size` is the USD spent; the share count is
`cost / price` when `price > 0` else `0`.  Appends the position, bumps the
session trade counter, and adds `(cost, shares)` to the side's accumulators.
Returns the position dict together with the new state. -/
def PositionTracker.addOpenPosition (t : PositionTracker) (side : Side)
    (price size : ℚ) (tokenId : ℕ) (tradeId : Option ℕ) (now : ℚ) :
    Position × PositionTracker :=
  let cost := size
  let shares := if 0 < price then cost / price else 0
  let position : Position :=
    { side := side, price := price, size := size, cost := cost,
      shares := shares, tokenId := tokenId, tradeId := tradeId, time := now }
  let t1 := { t with
    open_positions := t.open_positions ++ [position]
    session_trades := t.session_trades + 1 }
  let t2 :=
    match side with
    | Side.UP => { t1 with
        up_total_cost := t1.up_total_cost + cost
        up_total_size := t1.up_total_size + shares }
    | Side.DOWN => { t1 with
        down_total_cost := t1.down_total_cost + cost
        down_total_size := t1.down_total_size + shares }
  (position, t2)

/-- `PositionTracker.remove_failed_position(position)` (`trade.py` lines
825-846).  If the position is present in `open_positions` it is removed
(`list.remove`: the first equal entry), the trade counter is decremented,
and the side's accumulators are decreased by the *stored* `cost` and
`shares` of the position; returns `True`.  Otherwise nothing changes and
`False` is returned. -/
def PositionTracker.removeFailedPosition (t : PositionTracker)
    (position : Position) : Bool × PositionTracker :=
  if position ∈ t.open_positions then
    let t1 := { t with
      open_positions := t.open_positions.erase position
      session_trades := t.session_trades - 1 }
    let t2 :=
      match position.side with
      | Side.UP => { t1 with
          up_total_cost := t1.up_total_cost - position.cost
          up_total_size := t1.up_total_size - position.shares }
      | Side.DOWN => { t1 with
          down_total_cost := t1.down_total_cost - position.cost
          down_total_size := t1.down_total_size - position.shares }
    (true, t2)
  else (false, t)

/-- The closed-trade record built for one position inside
`close_all_side_positions`: `revenue = sale_price * shares`,
`profit = revenue - cost`. -/
def closeRecord (salePrice : ℚ) (p : Position) : ClosedTrade :=
  { pos := p, salePrice := salePrice, profit := salePrice * p.shares - p.cost }

/-- `PositionTracker.close_all_side_positions(side, sale_price)`
(`trade.py` lines 1067-1121).  Selects the open positions of `side`; if
there are none, returns `0.0` and changes nothing.  Otherwise each one is
moved (in order) to `closed_trades` with its individual profit, removed
from `open_positions` (`list.remove` per position, i.e. a fold of erases),
the totals are added to `session_pnl` / `session_wins`, and the side's
accumulators are reset to `0.0`.  Returns the total profit with the new
state. -/
def PositionTracker.closeAllSidePositions (t : PositionTracker) (side : Side)
    (salePrice : ℚ) : ℚ × PositionTracker :=
  let toClose := t.open_positions.filter (fun p => decide (p.side = side))
  if toClose = [] then (0, t)
  else
    let closed := toClose.map (closeRecord salePrice)
    let totalProfit := (closed.map (fun c => c.profit)).sum
    let wins := (closed.filter (fun c => decide (0 < c.profit))).length
    let t1 := { t with
      open_positions := toClose.foldl (fun l p => l.erase p) t.open_positions
      closed_trades := t.closed_trades ++ closed
      session_pnl := t.session_pnl + totalProfit
      session_wins := t.session_wins + wins }
    let t2 :=
      match side with
      | Side.UP => { t1 with up_total_cost := 0, up_total_size := 0 }
      | Side.DOWN => { t1 with down_total_cost := 0, down_total_size := 0 }
    (totalProfit, t2)

/-- `PositionTracker.get_pnl_scenarios()` (`trade.py` lines 885-903):
returns `(pnl_if_up_wins, pnl_if_down_wins)` where the winning side pays
$1 per share and the whole spent cost is sunk. -/
def PositionTracker.getPnlScenarios (t : PositionTracker) : ℚ × ℚ :=
  let total_cost := t.up_total_cost + t.down_total_cost
  let payout_if_up := t.up_total_size
  let pnl_if_up_wins := payout_if_up - total_cost
  let payout_if_down := t.down_total_size
  let pnl_if_down_wins := payout_if_down - total_cost
  (pnl_if_up_wins, pnl_if_down_wins)

/-- The `unpaired_risk` sub-dict of `get_paired_analysis`. -/
structure UnpairedRisk where
  side : Side
  contracts : ℚ
  cost : ℚ
  ifWins : ℚ
  ifLoses : ℚ
deriving DecidableEq, Repr

/-- The dict returned by `PositionTracker.get_paired_analysis()`. -/
structure PairedAnalysis where
  up_contracts : ℚ
  down_contracts : ℚ
  paired_contracts : ℚ
  unpaired_up : ℚ
  unpaired_down : ℚ
  paired_cost : ℚ
  paired_payout : ℚ
  locked_profit : ℚ
  avg_up : ℚ
  avg_down : ℚ
  unpaired_risk : Option UnpairedRisk
deriving DecidableEq, Repr

/-- `PositionTracker.get_paired_analysis()` (`trade.py` lines 905-977):
`paired = min(up, down)`, the unpaired remainder on each side, average
prices, proportional paired cost allocation from both sides' actual costs,
`paired_payout = paired * 1.0`, `locked_profit = paired_payout - paired_cost`,
and the risk sub-dict for the (at most one) unpaired side. -/
def PositionTracker.getPairedAnalysis (t : PositionTracker) : PairedAnalysis :=
  let up_contracts := t.up_total_size
  let down_contracts := t.down_total_size
  let paired := min up_contracts down_contracts
  let unpaired_up := up_contracts - paired
  let unpaired_down := down_contracts - paired
  let avg_up := if 0 < up_contracts then t.up_total_cost / up_contracts else 0
  let avg_down := if 0 < down_contracts then t.down_total_cost / down_contracts else 0
  let paired_cost :=
    if 0 < paired then
      (if 0 < up_contracts then paired / up_contracts * t.up_total_cost else 0) +
      (if 0 < down_contracts then paired / down_contracts * t.down_total_cost else 0)
    else 0
  let paired_payout := paired * 1
  let locked_profit := paired_payout - paired_cost
  let unpaired_risk :=
    if 0 < unpaired_up then
      let unpaired_cost := unpaired_up * avg_up
      some { side := Side.UP, contracts := unpaired_up, cost := unpaired_cost,
             ifWins := unpaired_up * 1 - unpaired_cost, ifLoses := -unpaired_cost }
    else if 0 < unpaired_down then
      let unpaired_cost := unpaired_down * avg_down
      some { side := Side.DOWN, contracts := unpaired_down, cost := unpaired_cost,
             ifWins := unpaired_down * 1 - unpaired_cost, ifLoses := -unpaired_cost }
    else none
  { up_contracts := up_contracts, down_contracts := down_contracts,
    paired_contracts := paired, unpaired_up := unpaired_up,
    unpaired_down := unpaired_down, paired_cost := paired_cost,
    paired_payout := paired_payout, locked_profit := locked_profit,
    avg_up := avg_up, avg_down := avg_down, unpaired_risk := unpaired_risk }

/-- The dict returned by `PositionTracker.get_buy_recommendation`. -/
structure BuyRecommendation where
  side : Side
  contracts : ℚ
  price : ℚ
  combined_price : ℚ
  add_cost : ℚ
  lock_profit : ℚ
  color : String
deriving DecidableEq, Repr

/-- `PositionTracker.get_buy_recommendation(current_up_ask, current_down_ask)`
(`trade.py` lines 979-1034): when one side is unpaired and the opposite
side has a positive live ask, recommend buying the opposite side in the
unpaired quantity; `combined = avg of the held side + ask of the side to
buy`, colored green below 0.98, yellow up to 1.00, red above. -/
def PositionTracker.getBuyRecommendation (t : PositionTracker)
    (current_up_ask current_down_ask : ℚ) : Option BuyRecommendation :=
  let analysis := t.getPairedAnalysis
  if 0 < analysis.unpaired_up ∧ 0 < current_down_ask then
    let combined := analysis.avg_up + current_down_ask
    let contracts := analysis.unpaired_up
    let add_cost := contracts * current_down_ask
    let color :=
      if combined < 98/100 then "green"
      else if combined ≤ 1 then "yellow"
      else "red"
    some { side := Side.DOWN, contracts := contracts, price := current_down_ask,
           combined_price := combined, add_cost := add_cost,
           lock_profit := contracts * (1 - combined), color := color }
  else if 0 < analysis.unpaired_down ∧ 0 < current_up_ask then
    let combined := analysis.avg_down + current_up_ask
    let contracts := analysis.unpaired_down
    let add_cost := contracts * current_up_ask
    let color :=
      if combined < 98/100 then "green"
      else if combined ≤ 1 then "yellow"
      else "red"
    some { side := Side.UP, contracts := contracts, price := current_up_ask,
           combined_price := combined, add_cost := add_cost,
           lock_profit := contracts * (1 - combined), color := color }
  else none

/-! ## Cross-process redeem lock (`src/redeem_lock.py`) -/

/-- The lock-holding part of a `RedeemLock` after `acquire` returns:
`_acquired` flag and whether the file descriptor is (still) open. -/
structure LockState where
  acquired : Bool
  fdOpen : Bool
deriving DecidableEq, Repr

/-- The retry loop of `RedeemLock.acquire` (`redeem_lock.py` lines 26-51):
while the timeout has not elapsed, try a non-blocking `flock`; on failure
sleep 0.5s and retry.  Time is abstracted by the number of loop iterations
the timeout budget allows (`iters`); `flockOk k` tells whether the k-th
`flock` attempt succeeds.  When the budget runs out the fd is closed and
`False` is returned with the lock not held. -/
def acquireGo (flockOk : ℕ → Bool) : ℕ → ℕ → Bool × LockState
  | 0, _ => (false, { acquired := false, fdOpen := false })
  | n + 1, k =>
    if flockOk k then (true, { acquired := true, fdOpen := true })
    else acquireGo flockOk n (k + 1)

/-- `RedeemLock.acquire()` starting from the first attempt. -/
def RedeemLock.acquire (flockOk : ℕ → Bool) (iters : ℕ) : Bool × LockState :=
  acquireGo flockOk iters 0

/-! ## Redemption write path (`src/redeem.py`, `redeem_specific`) -/

/-- The attempt budget of the redeem retry loop (`max_attempts = 3`,
`redeem.py` line 426). -/
def maxAttempts : ℕ := 3

/-- The inter-attempt delay in seconds (`retry_delay = 10`, `redeem.py`
line 427). -/
def retryDelay : ℕ := 10

/-- Observable interactions of `redeem_specific` with the chain, the
ledger and the lock.  `readBalance`/`readOracle` are chain *reads*;
`buildTx`/`signTx`/`submitTx` are the chain-*writer* calls;
`ledgerMutation` would mark any write to the `PositionTracker` (the
function performs none). -/
inductive ChainEvent where
  | readBalance : ℕ → ℕ → ChainEvent
  | readOracle : Bool → ChainEvent
  | fetchNonce : ℕ → ChainEvent
  | fetchGasPrice : ℕ → ChainEvent
  | buildTx : ℕ → ℕ → ChainEvent
  | signTx : ChainEvent
  | submitTx : ChainEvent
  | waitReceipt : Bool → ChainEvent
  | sleepSeconds : ℕ → ChainEvent
  | ledgerMutation : ChainEvent
  | lockReleased : ChainEvent
deriving DecidableEq, Repr

/-- Chain-writer calls: building, signing or submitting a transaction. -/
def ChainEvent.isWriter : ChainEvent → Bool
  | ChainEvent.buildTx _ _ => true
  | ChainEvent.signTx => true
  | ChainEvent.submitTx => true
  | _ => false

/-- Ledger mutations (never emitted by `redeem_specific`). -/
def ChainEvent.isLedger : ChainEvent → Bool
  | ChainEvent.ledgerMutation => true
  | _ => false

/-- The environment `redeem_specific` runs against: argument guards,
chain-read results, lock behaviour and the per-attempt outcome of the
build/sign/submit/confirm sequence (`attemptOk a = false` covers an
exception anywhere in attempt `a`, including `receipt.status != 1`, which
the source turns into an exception). -/
structure RedeemEnv where
  tokenIdsProvided : Bool
  keySet : Bool
  connected : Bool
  upBalance : ℕ
  downBalance : ℕ
  oracleResolved : Bool
  autoConfirm : Bool
  confirmYes : Bool
  flockOk : ℕ → Bool
  lockIters : ℕ
  negRisk : Bool
  nonce : ℕ → ℕ
  gasPrice : ℕ → ℕ
  attemptOk : ℕ → Bool

/-- The `for attempt in range(1, max_attempts + 1)` loop of
`redeem_specific` (`redeem.py` lines 428-512).  Each attempt re-fetches
the nonce and gas price, builds, signs and submits the transaction and
waits for the receipt; on success it returns `True`; on failure it sleeps
`retry_delay` seconds and retries while `attempt < max_attempts`, else
returns `False`.  `fuel` is the number of attempts remaining. -/
def redeemAttempts (env : RedeemEnv) : ℕ → ℕ → Bool × List ChainEvent
  | 0, _ => (false, [])
  | fuel + 1, attempt =>
    let evs := [ChainEvent.fetchNonce (env.nonce attempt),
                ChainEvent.fetchGasPrice (env.gasPrice attempt),
                ChainEvent.buildTx (env.nonce attempt) (env.gasPrice attempt),
                ChainEvent.signTx, ChainEvent.submitTx,
                ChainEvent.waitReceipt (env.attemptOk attempt)]
    if env.attemptOk attempt then (true, evs)
    else if attempt < maxAttempts then
      let rest := redeemAttempts env fuel (attempt + 1)
      (rest.1, evs ++ ChainEvent.sleepSeconds retryDelay :: rest.2)
    else (false, evs)

/-- `redeem_specific(condition_id, up_token_id, down_token_id, neg_risk,
auto_confirm, silent)` (`redeem.py` lines 348-515): argument/key/connection
guards, balance read (both zero → nothing to redeem), oracle-resolution
read, optional interactive confirmation, lock acquisition (timeout →
contended, return `False`), then the bounded retry loop with the lock
released in the `finally` block.  Returns the success flag together with
the trace of chain/lock interactions. -/
def redeemSpecific (env : RedeemEnv) : Bool × List ChainEvent :=
  if ¬ env.tokenIdsProvided then (false, [])
  else if ¬ env.keySet then (false, [])
  else if ¬ env.connected then (false, [])
  else
    let balanceEvents := [ChainEvent.readBalance 0 env.upBalance,
                          ChainEvent.readBalance 1 env.downBalance]
    if env.upBalance = 0 ∧ env.downBalance = 0 then (false, balanceEvents)
    else
      let oracleEvents := balanceEvents ++ [ChainEvent.readOracle env.oracleResolved]
      if ¬ env.oracleResolved then (false, oracleEvents)
      else if ¬ env.autoConfirm ∧ ¬ env.confirmYes then (false, oracleEvents)
      else if ¬ (RedeemLock.acquire env.flockOk env.lockIters).1 then
        (false, oracleEvents)
      else
        let run := redeemAttempts env maxAttempts 1
        (run.1, oracleEvents ++ run.2 ++ [ChainEvent.lockReleased])

/-! ## Order placement sizing (`src/trade.py`, `place_order`) -/

/-- The `OrderArgs` submitted by `place_order`: limit price per contract
and contract count. -/
structure OrderArgs where
  price : ℚ
  size : ℤ
deriving DecidableEq, Repr

/-- The pricing/sizing head of `place_order(client, market_data, side)`
(`trade.py` lines 1532-1575): reject when prices are stale or the side has
no positive ask; otherwise the limit price is the ask rounded *up* to two
decimals (`math.ceil(ask_price * 100) / 100`) and the contract count is
bumped to `math.ceil(1.0 / normalized_price)` whenever the configured
`current_contracts_size` falls below that $1-minimum threshold. -/
def placeOrderArgs (fresh : Bool) (askPrice : ℚ) (currentContractsSize : ℤ) :
    Option OrderArgs :=
  if ¬ fresh then none
  else if askPrice ≤ 0 then none
  else
    let normalizedPrice : ℚ := (⌈askPrice * 100⌉ : ℚ) / 100
    let minContractsForDollar : ℤ := ⌈(1 : ℚ) / normalizedPrice⌉
    let contracts :=
      if currentContractsSize < minContractsForDollar then minContractsForDollar
      else currentContractsSize
    some { price := normalizedPrice, size := contracts }

/-! ## Derived notions used by the verification -/

/-- A rational amount is representable in the chain's 6-decimal smallest
unit: it is an integer number of micro-units. -/
def isMicroUnitMultiple (q : ℚ) : Prop := ∃ n : ℤ, q = (n : ℚ) / 1000000

/-- Ledger states reachable from a fresh `PositionTracker` by the three
mutating operations `add_open_position` (record_fill),
`remove_failed_position` (revert_fill) and `close_all_side_positions`
(close_side). -/
inductive Reachable : PositionTracker → Prop where
  | init : Reachable PositionTracker.init
  | record (t : PositionTracker) (side : Side) (price size : ℚ) (tokenId : ℕ)
      (tradeId : Option ℕ) (now : ℚ) : Reachable t →
      Reachable (t.addOpenPosition side price size tokenId tradeId now).2
  | revert (t : PositionTracker) (p : Position) : Reachable t →
      Reachable (t.removeFailedPosition p).2
  | close (t : PositionTracker) (side : Side) (salePrice : ℚ) : Reachable t →
      Reachable (t.closeAllSidePositions side salePrice).2

/-- Ledger state of spec Scenario A: Fill UP 10 contracts at $0.40
(USD size 4.00) then Fill DOWN 10 contracts at $0.55 (USD size 5.50). -/
def scenarioA : PositionTracker :=
  ((PositionTracker.init.addOpenPosition Side.UP (2/5) 4 0 none 0).2.addOpenPosition
    Side.DOWN (11/20) (11/2) 1 none 0).2

/-- Ledger state of spec Scenario B: Fill UP 20 contracts at $0.45
(USD size 9.00) then Fill DOWN 5 contracts at $0.50 (USD size 2.50). -/
def scenarioB : PositionTracker :=
  ((PositionTracker.init.addOpenPosition Side.UP (9/20) 9 0 none 0).2.addOpenPosition
    Side.DOWN (1/2) (5/2) 1 none 0).2

/-- A single $1.00 fill at price $0.30: the resulting share accumulator is
10/3, which is off the 6-decimal grid. -/
def offGridState : PositionTracker :=
  (PositionTracker.init.addOpenPosition Side.UP (3/10) 1 0 none 0).2

/-- A redeem environment whose lock can never be acquired (every `flock`
attempt fails). -/
def contendedEnv : RedeemEnv where
  tokenIdsProvided := true
  keySet := true
  connected := true
  upBalance := 5
  downBalance := 0
  oracleResolved := true
  autoConfirm := true
  confirmYes := true
  flockOk := fun _ => false
  lockIters := 1
  negRisk := true
  nonce := fun _ => 0
  gasPrice := fun _ => 0
  attemptOk := fun _ => true

/-- A redeem environment that passes every guard, acquires the lock at
once, and whose submission succeeds only on the third attempt. -/
def thirdTryEnv : RedeemEnv where
  tokenIdsProvided := true
  keySet := true
  connected := true
  upBalance := 5
  downBalance := 0
  oracleResolved := true
  autoConfirm := true
  confirmYes := true
  flockOk := fun _ => true
  lockIters := 1
  negRisk := true
  nonce := fun a => 100 + a
  gasPrice := fun a => 30 + a
  attemptOk := fun a => a == 3

/-! ## Helper lemmas -/

/-- Erasing elements none of which equals the head leaves the head in
place. -/
theorem foldl_erase_cons_of_ne {α : Type} [DecidableEq α] (es : List α)
    (x : α) (l : List α) (h : ∀ y ∈ es, y ≠ x) :
    es.foldl (fun acc y => acc.erase y) (x :: l)
      = x :: es.foldl (fun acc y => acc.erase y) l := by
  induction es generalizing l with
  | nil => simp
  | cons e es ih =>
    have hex : e ≠ x := h e (by simp)
    simp only [List.foldl_cons]
    rw [List.erase_cons_tail (by simpa using fun he => hex he.symm)]
    exact ih _ (fun y hy => h y (by simp [hy]))

/-- Folding `List.erase` over exactly the elements selected by `p` removes
them all: the result is the complementary filter. -/
theorem foldl_erase_filter {α : Type} [DecidableEq α] (p : α → Bool)
    (l : List α) :
    (l.filter p).foldl (fun acc y => acc.erase y) l
      = l.filter (fun a => !(p a)) := by
  induction l with
  | nil => simp
  | cons x l ih =>
    by_cases hx : p x = true
    · rw [List.filter_cons_of_pos hx, List.foldl_cons, List.erase_cons_head,
        List.filter_cons_of_neg (by simp [hx]), ih]
    · have hx' : p x = false := by simpa using hx
      rw [List.filter_cons_of_neg (by simp [hx']),
        List.filter_cons_of_pos (by simp [hx']),
        foldl_erase_cons_of_ne _ _ _ ?keep, ih]
      case keep =>
        intro y hy hyx
        have hpy : p y = true := (List.mem_filter.mp hy).2
        rw [hyx, hx'] at hpy
        exact Bool.false_ne_true hpy

/-- After `close_all_side_positions`, the open positions are exactly those
of the other side (whether or not anything was closed). -/
theorem closeAllSidePositions_open (t : PositionTracker) (side : Side)
    (salePrice : ℚ) :
    ((t.closeAllSidePositions side salePrice).2).open_positions
      = t.open_positions.filter (fun p => !(decide (p.side = side))) := by
  simp only [PositionTracker.closeAllSidePositions]
  by_cases h : t.open_positions.filter (fun p => decide (p.side = side)) = []
  · have hall := List.filter_eq_nil_iff.mp h
    rw [if_pos h]
    refine (List.filter_eq_self.mpr ?_).symm
    intro a ha
    simpa using hall a ha
  · have hfold := foldl_erase_filter (fun p => decide (p.side = side)) t.open_positions
    rw [if_neg h]
    cases side
    · simpa using hfold
    · simpa using hfold

/-- The value 10/3 is not an integer number of micro-units. -/
theorem ten_thirds_not_micro : ¬ isMicroUnitMultiple (10/3 : ℚ) := by
  rintro ⟨n, hn⟩
  rw [div_eq_div_iff (by norm_num) (by norm_num)] at hn
  have hz : (10 * 1000000 : ℤ) = n * 3 := by exact_mod_cast hn
  omega

/-- The off-grid state really holds 10/3 shares of UP. -/
theorem offGridState_up_total_size : offGridState.up_total_size = 10/3 := by
  norm_num [offGridState, PositionTracker.addOpenPosition, PositionTracker.init]

/-! ## Claim theorems -/

/-- C1 (counterexample): the accumulator state is *not* kept in 6-decimal
fixed point: the state reached by recording a single $1.00 fill at price
$0.30 holds an UP share total of 10/3, which is not an integer number of
the chain's 6-decimal smallest units. -/
theorem c1_counterexample_not_fixed_point :
    Reachable offGridState ∧ ¬ isMicroUnitMultiple offGridState.up_total_size := by
  refine ⟨Reachable.record _ _ _ _ _ _ _ Reachable.init, ?_⟩
  rw [offGridState_up_total_size]
  exact ten_thirds_not_micro

/-- C1 (amended): the accumulator state is kept in plain (binary
floating-point, here embedded as exact rational) arithmetic: recording a
fill adds exactly `size` to the side's total cost and `size / price` to
the side's total quantity, with no quantisation to the chain's 6-decimal
smallest unit, and accumulator values off the 6-decimal grid are
reachable. -/
theorem c1_accumulators_unquantized :
    (∀ (t : PositionTracker) (price size : ℚ) (tokenId : ℕ)
        (tradeId : Option ℕ) (now : ℚ), 0 < price →
      ((t.addOpenPosition Side.UP price size tokenId tradeId now).2.up_total_cost
          = t.up_total_cost + size ∧
        (t.addOpenPosition Side.UP price size tokenId tradeId now).2.up_total_size
          = t.up_total_size + size / price) ∧
      ((t.addOpenPosition Side.DOWN price size tokenId tradeId now).2.down_total_cost
          = t.down_total_cost + size ∧
        (t.addOpenPosition Side.DOWN price size tokenId tradeId now).2.down_total_size
          = t.down_total_size + size / price)) ∧
    (∃ t : PositionTracker, Reachable t ∧ ¬ isMicroUnitMultiple t.up_total_size) := by
  constructor
  · intro t price size tokenId tradeId now hp
    constructor <;> constructor <;> simp [PositionTracker.addOpenPosition, hp]
  · refine ⟨offGridState, Reachable.record _ _ _ _ _ _ _ Reachable.init, ?_⟩
    rw [offGridState_up_total_size]
    exact ten_thirds_not_micro

/-- C1 (witness): the amended fill semantics evaluated on the concrete
$1.00-at-$0.30 fill. -/
theorem c1_witness : (0:ℚ) < 3/10 ∧
    (PositionTracker.init.addOpenPosition Side.UP (3/10) 1 0 none 0).2.up_total_size
      = PositionTracker.init.up_total_size + 1 / (3/10) :=
  ⟨by norm_num,
   (c1_accumulators_unquantized.1 PositionTracker.init (3/10) 1 0 none 0
      (by norm_num)).1.2⟩

/-- C2: recording a fill and then immediately reverting that same
position restores all four side accumulators and the session trade
counter to exactly their pre-fill values (using the stored cost/shares),
and reverting a position that is not in the open list is a silent no-op
returning `False`. -/
theorem c2_record_revert_exact :
    (∀ (t : PositionTracker) (side : Side) (price size : ℚ) (tokenId : ℕ)
        (tradeId : Option ℕ) (now : ℚ), 0 < price → 0 < size →
      ((t.addOpenPosition side price size tokenId tradeId now).2.removeFailedPosition
          (t.addOpenPosition side price size tokenId tradeId now).1).1 = true ∧
      ((t.addOpenPosition side price size tokenId tradeId now).2.removeFailedPosition
          (t.addOpenPosition side price size tokenId tradeId now).1).2.up_total_cost
        = t.up_total_cost ∧
      ((t.addOpenPosition side price size tokenId tradeId now).2.removeFailedPosition
          (t.addOpenPosition side price size tokenId tradeId now).1).2.up_total_size
        = t.up_total_size ∧
      ((t.addOpenPosition side price size tokenId tradeId now).2.removeFailedPosition
          (t.addOpenPosition side price size tokenId tradeId now).1).2.down_total_cost
        = t.down_total_cost ∧
      ((t.addOpenPosition side price size tokenId tradeId now).2.removeFailedPosition
          (t.addOpenPosition side price size tokenId tradeId now).1).2.down_total_size
        = t.down_total_size ∧
      ((t.addOpenPosition side price size tokenId tradeId now).2.removeFailedPosition
          (t.addOpenPosition side price size tokenId tradeId now).1).2.session_trades
        = t.session_trades) ∧
    (∀ (t : PositionTracker) (p : Position), p ∉ t.open_positions →
      t.removeFailedPosition p = (false, t)) := by
  constructor
  · intro t side price size tokenId tradeId now hp hs
    cases side <;>
      simp [PositionTracker.addOpenPosition, PositionTracker.removeFailedPosition]
  · intro t p hn
    simp [PositionTracker.removeFailedPosition, hn]

/-- C2 (witness): record-then-revert on a concrete fill restores the UP
share accumulator, and reverting against the empty ledger is a no-op. -/
theorem c2_witness :
    (0:ℚ) < 1/2 ∧ (0:ℚ) < 1 ∧
    ((PositionTracker.init.addOpenPosition Side.UP (1/2) 1 7 none 0).2.removeFailedPosition
        (PositionTracker.init.addOpenPosition Side.UP (1/2) 1 7 none 0).1).2.up_total_size
      = PositionTracker.init.up_total_size ∧
    PositionTracker.init.removeFailedPosition
        (PositionTracker.init.addOpenPosition Side.UP (1/2) 1 7 none 0).1
      = (false, PositionTracker.init) := by
  refine ⟨by norm_num, by norm_num, ?_, ?_⟩
  · exact (c2_record_revert_exact.1 PositionTracker.init Side.UP (1/2) 1 7 none 0
      (by norm_num) (by norm_num)).2.2.1
  · exact c2_record_revert_exact.2 PositionTracker.init _
      (by simp [PositionTracker.init])

/-- C3: on every reachable ledger state the paired analysis satisfies
`paired = min(qtyUP, qtyDOWN)`, `paired + unpaired_up = qtyUP`,
`paired + unpaired_down = qtyDOWN`, and
`unpaired_up * unpaired_down = 0`. -/
theorem c3_paired_decomposition (t : PositionTracker) (h : Reachable t) :
    (t.getPairedAnalysis).paired_contracts
        = min (t.getPairedAnalysis).up_contracts (t.getPairedAnalysis).down_contracts ∧
    (t.getPairedAnalysis).paired_contracts + (t.getPairedAnalysis).unpaired_up
        = (t.getPairedAnalysis).up_contracts ∧
    (t.getPairedAnalysis).paired_contracts + (t.getPairedAnalysis).unpaired_down
        = (t.getPairedAnalysis).down_contracts ∧
    (t.getPairedAnalysis).unpaired_up * (t.getPairedAnalysis).unpaired_down = 0 := by
  simp only [PositionTracker.getPairedAnalysis]
  refine ⟨trivial, by ring, by ring, ?_⟩
  rcases le_total t.up_total_size t.down_total_size with hle | hle
  · rw [min_eq_left hle]
    simp
  · rw [min_eq_right hle]
    simp

/-- C3 (witness): the paired-decomposition invariants evaluated on the
reachable initial state. -/
theorem c3_witness : Reachable PositionTracker.init ∧
    (PositionTracker.init.getPairedAnalysis).unpaired_up *
      (PositionTracker.init.getPairedAnalysis).unpaired_down = 0 :=
  ⟨Reachable.init,
   (c3_paired_decomposition PositionTracker.init Reachable.init).2.2.2⟩

/-- The Scenario A accumulators: $4.00 for 10 UP shares, $5.50 for 10
DOWN shares. -/
theorem scenarioA_fields :
    scenarioA.up_total_cost = 4 ∧ scenarioA.up_total_size = 10 ∧
    scenarioA.down_total_cost = 11/2 ∧ scenarioA.down_total_size = 10 := by
  norm_num [scenarioA, PositionTracker.addOpenPosition, PositionTracker.init]

/-- The Scenario B accumulators: $9.00 for 20 UP shares, $2.50 for 5
DOWN shares. -/
theorem scenarioB_fields :
    scenarioB.up_total_cost = 9 ∧ scenarioB.up_total_size = 20 ∧
    scenarioB.down_total_cost = 5/2 ∧ scenarioB.down_total_size = 5 := by
  norm_num [scenarioB, PositionTracker.addOpenPosition, PositionTracker.init]

/-- Scenario B carries 15 unpaired UP contracts. -/
theorem scenarioB_unpaired_up : (scenarioB.getPairedAnalysis).unpaired_up = 15 := by
  obtain ⟨h1, h2, h3, h4⟩ := scenarioB_fields
  simp only [PositionTracker.getPairedAnalysis, h2, h4]
  norm_num [min_def]

/-- Scenario A carries 10 paired contracts. -/
theorem scenarioA_paired : (scenarioA.getPairedAnalysis).paired_contracts = 10 := by
  obtain ⟨h1, h2, h3, h4⟩ := scenarioA_fields
  simp only [PositionTracker.getPairedAnalysis, h2, h4]
  norm_num [min_def]

/-- C6: with an unpaired side and a positive ask on the opposite side, the
buy recommendation proposes buying the opposite side in exactly the
unpaired quantity, reports combined cost per pair = average price of the
held side + live ask of the side to buy, and colors it green (cheap)
below 0.98, yellow (marginal) from 0.98 to 1.00, red (expensive) above
1.00; Scenario B (UP 20@$0.45, DOWN 5@$0.50, DOWN ask $0.52) yields
buy 15 DOWN at combined $0.97, green. -/
theorem c6_buy_recommendation :
    (∀ (t : PositionTracker) (upAsk downAsk : ℚ),
        0 < (t.getPairedAnalysis).unpaired_up → 0 < downAsk →
        ∃ r : BuyRecommendation,
          t.getBuyRecommendation upAsk downAsk = some r ∧
          r.side = Side.DOWN ∧
          r.contracts = (t.getPairedAnalysis).unpaired_up ∧
          r.combined_price = (t.getPairedAnalysis).avg_up + downAsk ∧
          (r.combined_price < 98/100 → r.color = "green") ∧
          (98/100 ≤ r.combined_price → r.combined_price ≤ 1 → r.color = "yellow") ∧
          (1 < r.combined_price → r.color = "red")) ∧
    (∀ (t : PositionTracker) (upAsk downAsk : ℚ),
        0 < (t.getPairedAnalysis).unpaired_down → 0 < upAsk →
        ∃ r : BuyRecommendation,
          t.getBuyRecommendation upAsk downAsk = some r ∧
          r.side = Side.UP ∧
          r.contracts = (t.getPairedAnalysis).unpaired_down ∧
          r.combined_price = (t.getPairedAnalysis).avg_down + upAsk ∧
          (r.combined_price < 98/100 → r.color = "green") ∧
          (98/100 ≤ r.combined_price → r.combined_price ≤ 1 → r.color = "yellow") ∧
          (1 < r.combined_price → r.color = "red")) ∧
    (scenarioB.getBuyRecommendation 0 (13/25)
      = some { side := Side.DOWN, contracts := 15, price := 13/25,
               combined_price := 97/100, add_cost := 39/5, lock_profit := 9/20,
               color := "green" }) := by
  refine ⟨?_, ?_, ?_⟩
  · intro t upAsk downAsk h1 h2
    simp only [PositionTracker.getBuyRecommendation]
    rw [if_pos ⟨h1, h2⟩]
    refine ⟨_, rfl, rfl, rfl, rfl, ?_, ?_, ?_⟩
    · intro hlt
      simp only [if_pos hlt]
    · intro hge hle
      simp only [if_neg (not_lt.mpr hge), if_pos hle]
    · intro hgt
      have h98 : (98/100 : ℚ) ≤ (t.getPairedAnalysis).avg_up + downAsk :=
        le_of_lt (lt_trans (by norm_num) hgt)
      simp only [if_neg (not_lt.mpr h98), if_neg (not_le.mpr hgt)]
  · intro t upAsk downAsk h1 h2
    have hup : (t.getPairedAnalysis).unpaired_up = 0 := by
      simp only [PositionTracker.getPairedAnalysis] at h1 ⊢
      rcases le_total t.up_total_size t.down_total_size with hle | hle
      · rw [min_eq_left hle]
        simp
      · rw [min_eq_right hle] at h1
        simp at h1
    simp only [PositionTracker.getBuyRecommendation]
    rw [if_neg (by rw [hup]; simp), if_pos ⟨h1, h2⟩]
    refine ⟨_, rfl, rfl, rfl, rfl, ?_, ?_, ?_⟩
    · intro hlt
      simp only [if_pos hlt]
    · intro hge hle
      simp only [if_neg (not_lt.mpr hge), if_pos hle]
    · intro hgt
      have h98 : (98/100 : ℚ) ≤ (t.getPairedAnalysis).avg_down + upAsk :=
        le_of_lt (lt_trans (by norm_num) hgt)
      simp only [if_neg (not_lt.mpr h98), if_neg (not_le.mpr hgt)]
  · obtain ⟨h1, h2, h3, h4⟩ := scenarioB_fields
    simp only [PositionTracker.getBuyRecommendation, PositionTracker.getPairedAnalysis,
      h1, h2, h3, h4]
    norm_num [min_def]

/-- C6 (witness): the recommendation theorem applied to the Scenario B
state with DOWN ask $0.52. -/
theorem c6_witness :
    0 < (scenarioB.getPairedAnalysis).unpaired_up ∧ (0:ℚ) < 13/25 ∧
    ∃ r : BuyRecommendation,
      scenarioB.getBuyRecommendation 0 (13/25) = some r ∧
      r.side = Side.DOWN ∧
      r.contracts = (scenarioB.getPairedAnalysis).unpaired_up ∧
      r.combined_price = (scenarioB.getPairedAnalysis).avg_up + 13/25 ∧
      (r.combined_price < 98/100 → r.color = "green") ∧
      (98/100 ≤ r.combined_price → r.combined_price ≤ 1 → r.color = "yellow") ∧
      (1 < r.combined_price → r.color = "red") :=
  ⟨by rw [scenarioB_unpaired_up]; norm_num, by norm_num,
   c6_buy_recommendation.1 scenarioB 0 (13/25)
     (by rw [scenarioB_unpaired_up]; norm_num) (by norm_num)⟩

/-- C7: paired cost is allocated proportionally from both sides' actual
recorded costs, and `locked_profit = paired * $1 - paired_cost`; on
Scenario A (UP 10@$0.40, DOWN 10@$0.55) the ledger reports paired = 10,
paired_cost = $9.50 and locked_profit = $0.50. -/
theorem c7_paired_cost_allocation :
    (∀ t : PositionTracker,
      (t.getPairedAnalysis).locked_profit
          = (t.getPairedAnalysis).paired_contracts * 1 - (t.getPairedAnalysis).paired_cost ∧
      (0 < (t.getPairedAnalysis).paired_contracts →
        (t.getPairedAnalysis).paired_cost
            = (t.getPairedAnalysis).paired_contracts / t.up_total_size * t.up_total_cost
              + (t.getPairedAnalysis).paired_contracts / t.down_total_size * t.down_total_cost)) ∧
    ((scenarioA.getPairedAnalysis).paired_contracts = 10 ∧
      (scenarioA.getPairedAnalysis).paired_cost = 19/2 ∧
      (scenarioA.getPairedAnalysis).locked_profit = 1/2) := by
  constructor
  · intro t
    simp only [PositionTracker.getPairedAnalysis]
    constructor
    · trivial
    · intro hpos
      have hu : 0 < t.up_total_size := lt_of_lt_of_le hpos (min_le_left _ _)
      have hd : 0 < t.down_total_size := lt_of_lt_of_le hpos (min_le_right _ _)
      rw [if_pos hpos, if_pos hu, if_pos hd]
  · obtain ⟨h1, h2, h3, h4⟩ := scenarioA_fields
    refine ⟨scenarioA_paired, ?_, ?_⟩ <;>
      · simp only [PositionTracker.getPairedAnalysis, h1, h2, h3, h4]
        norm_num [min_def]

/-- C7 (witness): the proportional-allocation equation of the theorem
evaluated on the Scenario A state. -/
theorem c7_witness :
    0 < (scenarioA.getPairedAnalysis).paired_contracts ∧
    (scenarioA.getPairedAnalysis).paired_cost
        = (scenarioA.getPairedAnalysis).paired_contracts / scenarioA.up_total_size
            * scenarioA.up_total_cost
          + (scenarioA.getPairedAnalysis).paired_contracts / scenarioA.down_total_size
            * scenarioA.down_total_cost :=
  ⟨by rw [scenarioA_paired]; norm_num,
   (c7_paired_cost_allocation.1 scenarioA).2 (by rw [scenarioA_paired]; norm_num)⟩

/-- C8: for any ledger state, the scenario P/L of a winning side equals
that side's share total times $1 minus the total invested on both sides,
so P/L plus total invested equals the winning side's quantity. -/
theorem c8_pnl_conservation (t : PositionTracker) :
    (t.getPnlScenarios).1 = t.up_total_size * 1 - (t.up_total_cost + t.down_total_cost) ∧
    (t.getPnlScenarios).2 = t.down_total_size * 1 - (t.up_total_cost + t.down_total_cost) ∧
    (t.getPnlScenarios).1 + (t.up_total_cost + t.down_total_cost) = t.up_total_size ∧
    (t.getPnlScenarios).2 + (t.up_total_cost + t.down_total_cost) = t.down_total_size := by
  simp only [PositionTracker.getPnlScenarios]
  exact ⟨by ring, by ring, by ring, by ring⟩

/-- C9: closing the same side twice with no intervening fills is a no-op
the second time: the second call returns profit 0 and leaves the whole
tracker state (accumulators, closed-trade list, session statistics)
unchanged, at any settlement price. -/
theorem c9_close_side_idempotent (t : PositionTracker) (side : Side) (p1 p2 : ℚ) :
    ((t.closeAllSidePositions side p1).2).closeAllSidePositions side p2
      = (0, (t.closeAllSidePositions side p1).2) := by
  have hopen := closeAllSidePositions_open t side p1
  set t1 := (t.closeAllSidePositions side p1).2 with ht1
  have hempty : (t1.open_positions.filter (fun p => decide (p.side = side))) = [] := by
    rw [hopen, List.filter_filter]
    simp
  simp [PositionTracker.closeAllSidePositions, hempty]

/-- If every `flock` attempt within the time budget fails, the acquire
loop returns `False` with the lock not held and the fd closed. -/
theorem acquireGo_timeout (flockOk : ℕ → Bool) :
    ∀ (n k : ℕ), (∀ i, i < n → flockOk (k + i) = false) →
    acquireGo flockOk n k = (false, { acquired := false, fdOpen := false }) := by
  intro n
  induction n with
  | zero => intro k h; rfl
  | succ n ih =>
    intro k h
    have h0 : flockOk k = false := by simpa using h 0 (Nat.succ_pos n)
    simp only [acquireGo, h0, Bool.false_eq_true, if_false]
    exact ih (k + 1) (fun i hi => by
      rw [show k + 1 + i = k + (i + 1) by omega]
      exact h (i + 1) (Nat.succ_lt_succ hi))

/-- With the lock unobtainable, `redeem_specific` returns `False` and its
trace is one of the three read-only prefixes. -/
theorem redeemSpecific_locked_out (env : RedeemEnv)
    (hfst : (RedeemLock.acquire env.flockOk env.lockIters).1 = false) :
    (redeemSpecific env).1 = false ∧
    ((redeemSpecific env).2 = [] ∨
     (redeemSpecific env).2
        = [ChainEvent.readBalance 0 env.upBalance,
           ChainEvent.readBalance 1 env.downBalance] ∨
     (redeemSpecific env).2
        = [ChainEvent.readBalance 0 env.upBalance,
           ChainEvent.readBalance 1 env.downBalance,
           ChainEvent.readOracle env.oracleResolved]) := by
  simp only [redeemSpecific]
  split_ifs with h1 h2 h3 h4 h5 h6 h7 <;> simp_all

/-- C4: when the redeem lock times out (no `flock` attempt within the
budget succeeds), `acquire` returns `False` without holding the lock, the
settlement attempt ends contended (`redeem_specific` returns `False`),
and the whole trace contains no chain-writer call (no build, sign or
submit) and no ledger mutation. -/
theorem c4_lock_timeout_contended (env : RedeemEnv)
    (htime : ∀ k, k < env.lockIters → env.flockOk k = false) :
    RedeemLock.acquire env.flockOk env.lockIters
        = (false, { acquired := false, fdOpen := false }) ∧
    (redeemSpecific env).1 = false ∧
    (∀ e ∈ (redeemSpecific env).2, e.isWriter = false ∧ e.isLedger = false) := by
  have hacq : RedeemLock.acquire env.flockOk env.lockIters
      = (false, { acquired := false, fdOpen := false }) :=
    acquireGo_timeout env.flockOk env.lockIters 0
      (fun i hi => by simpa using htime i (by simpa using hi))
  have hfst : (RedeemLock.acquire env.flockOk env.lockIters).1 = false := by
    rw [hacq]
  obtain ⟨hres, hevs⟩ := redeemSpecific_locked_out env hfst
  refine ⟨hacq, hres, ?_⟩
  intro e he
  rcases hevs with hevs | hevs | hevs <;> rw [hevs] at he <;>
    fin_cases he <;> exact ⟨rfl, rfl⟩

/-- C4 (witness): the contended outcome on a concrete environment whose
`flock` always fails. -/
theorem c4_witness :
    (∀ k, k < contendedEnv.lockIters → contendedEnv.flockOk k = false) ∧
    (redeemSpecific contendedEnv).1 = false :=
  ⟨fun _ _ => rfl,
   (c4_lock_timeout_contended contendedEnv (fun _ _ => rfl)).2.1⟩

/-- C5: the redemption write path uses a budget of 3 attempts with a
10-second inter-attempt sleep and re-fetches the nonce and gas price on
every attempt; with the guards passed and the lock held, fail-fail-succeed
yields overall success after exactly 3 submissions, and three failures
yield overall failure with the lock still released. -/
theorem c5_retry_budget (env : RedeemEnv)
    (hids : env.tokenIdsProvided = true) (hkey : env.keySet = true)
    (hconn : env.connected = true)
    (hbal : ¬ (env.upBalance = 0 ∧ env.downBalance = 0))
    (hor : env.oracleResolved = true) (hconf : env.autoConfirm = true)
    (hlock : (RedeemLock.acquire env.flockOk env.lockIters).1 = true) :
    maxAttempts = 3 ∧ retryDelay = 10 ∧
    (env.attemptOk 1 = false → env.attemptOk 2 = false → env.attemptOk 3 = true →
      (redeemSpecific env).1 = true ∧
      (redeemSpecific env).2.count ChainEvent.submitTx = 3 ∧
      (∀ i, 1 ≤ i → i ≤ 3 →
        ChainEvent.fetchNonce (env.nonce i) ∈ (redeemSpecific env).2 ∧
        ChainEvent.fetchGasPrice (env.gasPrice i) ∈ (redeemSpecific env).2) ∧
      (redeemSpecific env).2.count (ChainEvent.sleepSeconds retryDelay) = 2 ∧
      ChainEvent.lockReleased ∈ (redeemSpecific env).2) ∧
    (env.attemptOk 1 = false → env.attemptOk 2 = false → env.attemptOk 3 = false →
      (redeemSpecific env).1 = false ∧
      (redeemSpecific env).2.count ChainEvent.submitTx = 3 ∧
      ChainEvent.lockReleased ∈ (redeemSpecific env).2) := by
  refine ⟨rfl, rfl, ?_, ?_⟩
  · intro h1 h2 h3
    have hrs : redeemSpecific env
        = (true,
           [ChainEvent.readBalance 0 env.upBalance,
            ChainEvent.readBalance 1 env.downBalance,
            ChainEvent.readOracle true,
            ChainEvent.fetchNonce (env.nonce 1), ChainEvent.fetchGasPrice (env.gasPrice 1),
            ChainEvent.buildTx (env.nonce 1) (env.gasPrice 1), ChainEvent.signTx,
            ChainEvent.submitTx, ChainEvent.waitReceipt false,
            ChainEvent.sleepSeconds 10,
            ChainEvent.fetchNonce (env.nonce 2), ChainEvent.fetchGasPrice (env.gasPrice 2),
            ChainEvent.buildTx (env.nonce 2) (env.gasPrice 2), ChainEvent.signTx,
            ChainEvent.submitTx, ChainEvent.waitReceipt false,
            ChainEvent.sleepSeconds 10,
            ChainEvent.fetchNonce (env.nonce 3), ChainEvent.fetchGasPrice (env.gasPrice 3),
            ChainEvent.buildTx (env.nonce 3) (env.gasPrice 3), ChainEvent.signTx,
            ChainEvent.submitTx, ChainEvent.waitReceipt true,
            ChainEvent.lockReleased]) := by
      simp [redeemSpecific, redeemAttempts, maxAttempts, retryDelay,
        hids, hkey, hconn, hbal, hor, hconf, hlock, h1, h2, h3]
    rw [hrs]
    refine ⟨rfl, by simp [List.count_cons, retryDelay], ?_, by simp [List.count_cons, retryDelay], by simp⟩
    intro i hi1 hi3
    interval_cases i <;> simp
  · intro h1 h2 h3
    have hrs : redeemSpecific env
        = (false,
           [ChainEvent.readBalance 0 env.upBalance,
            ChainEvent.readBalance 1 env.downBalance,
            ChainEvent.readOracle true,
            ChainEvent.fetchNonce (env.nonce 1), ChainEvent.fetchGasPrice (env.gasPrice 1),
            ChainEvent.buildTx (env.nonce 1) (env.gasPrice 1), ChainEvent.signTx,
            ChainEvent.submitTx, ChainEvent.waitReceipt false,
            ChainEvent.sleepSeconds 10,
            ChainEvent.fetchNonce (env.nonce 2), ChainEvent.fetchGasPrice (env.gasPrice 2),
            ChainEvent.buildTx (env.nonce 2) (env.gasPrice 2), ChainEvent.signTx,
            ChainEvent.submitTx, ChainEvent.waitReceipt false,
            ChainEvent.sleepSeconds 10,
            ChainEvent.fetchNonce (env.nonce 3), ChainEvent.fetchGasPrice (env.gasPrice 3),
            ChainEvent.buildTx (env.nonce 3) (env.gasPrice 3), ChainEvent.signTx,
            ChainEvent.submitTx, ChainEvent.waitReceipt false,
            ChainEvent.lockReleased]) := by
      simp [redeemSpecific, redeemAttempts, maxAttempts, retryDelay,
        hids, hkey, hconn, hbal, hor, hconf, hlock, h1, h2, h3]
    rw [hrs]
    exact ⟨rfl, by simp [List.count_cons, retryDelay], by simp⟩

/-- C5 (witness): the retry theorem evaluated on the concrete environment
whose submission succeeds only on the third attempt. -/
theorem c5_witness :
    thirdTryEnv.attemptOk 1 = false ∧ thirdTryEnv.attemptOk 2 = false ∧
    thirdTryEnv.attemptOk 3 = true ∧ (redeemSpecific thirdTryEnv).1 = true := by
  refine ⟨rfl, rfl, rfl, ?_⟩
  exact ((c5_retry_budget thirdTryEnv rfl rfl rfl (by decide) rfl rfl
    rfl).2.2.1 rfl rfl rfl).1

/-- C10: with fresh prices and a positive ask, `place_order` submits a
limit price equal to the ask rounded up to 2 decimals and a contract
count equal to the maximum of the operator-configured size and
`ceil(1 / price)`, so the order's notional is always at least $1. -/
theorem c10_place_order_min_notional (fresh : Bool) (askPrice : ℚ) (cfg : ℤ)
    (hfresh : fresh = true) (hask : 0 < askPrice) :
    ∃ args : OrderArgs,
      placeOrderArgs fresh askPrice cfg = some args ∧
      args.price = (⌈askPrice * 100⌉ : ℚ) / 100 ∧
      args.size = max cfg ⌈(1 : ℚ) / args.price⌉ ∧
      (1 : ℚ) ≤ args.price * (args.size : ℚ) := by
  subst hfresh
  have hnot : ¬ askPrice ≤ 0 := not_le.mpr hask
  simp only [placeOrderArgs]
  rw [if_neg (by simp), if_neg hnot]
  have hceilpos : 0 < ⌈askPrice * 100⌉ := Int.ceil_pos.mpr (by positivity)
  have hppos : (0 : ℚ) < (⌈askPrice * 100⌉ : ℚ) / 100 := by
    apply div_pos _ (by norm_num : (0:ℚ) < 100)
    exact_mod_cast hceilpos
  refine ⟨_, rfl, rfl, ?_, ?_⟩
  · rcases lt_or_le cfg ⌈(1 : ℚ) / ((⌈askPrice * 100⌉ : ℚ) / 100)⌉ with h | h
    · rw [if_pos h, max_eq_right h.le]
    · rw [if_neg (not_lt.mpr h), max_eq_left h]
  · have hmle : (1 : ℚ) / ((⌈askPrice * 100⌉ : ℚ) / 100)
        ≤ (⌈(1 : ℚ) / ((⌈askPrice * 100⌉ : ℚ) / 100)⌉ : ℚ) := Int.le_ceil _
    have hsle : (⌈(1 : ℚ) / ((⌈askPrice * 100⌉ : ℚ) / 100)⌉ : ℚ)
        ≤ ((if cfg < ⌈(1 : ℚ) / ((⌈askPrice * 100⌉ : ℚ) / 100)⌉ then
              ⌈(1 : ℚ) / ((⌈askPrice * 100⌉ : ℚ) / 100)⌉ else cfg : ℤ) : ℚ) := by
      rcases lt_or_le cfg ⌈(1 : ℚ) / ((⌈askPrice * 100⌉ : ℚ) / 100)⌉ with h | h
      · rw [if_pos h]
      · rw [if_neg (not_lt.mpr h)]
        exact_mod_cast h
    calc (1 : ℚ)
        = (⌈askPrice * 100⌉ : ℚ) / 100 * ((1 : ℚ) / ((⌈askPrice * 100⌉ : ℚ) / 100)) := by
          field_simp
      _ ≤ (⌈askPrice * 100⌉ : ℚ) / 100 *
            ((if cfg < ⌈(1 : ℚ) / ((⌈askPrice * 100⌉ : ℚ) / 100)⌉ then
                ⌈(1 : ℚ) / ((⌈askPrice * 100⌉ : ℚ) / 100)⌉ else cfg : ℤ) : ℚ) :=
          mul_le_mul_of_nonneg_left (le_trans hmle hsle) hppos.le

/-- C10 (witness): the sizing theorem evaluated at ask $0.07 with a
configured size of 5 contracts. -/
theorem c10_witness :
    (0:ℚ) < 7/100 ∧
    ∃ args : OrderArgs,
      placeOrderArgs true (7/100) 5 = some args ∧
      args.price = (⌈(7/100 : ℚ) * 100⌉ : ℚ) / 100 ∧
      args.size = max 5 ⌈(1 : ℚ) / args.price⌉ ∧
      (1 : ℚ) ≤ args.price * (args.size : ℚ) :=
  ⟨by norm_num, c10_place_order_min_notional true (7/100) 5 rfl (by norm_num)⟩
